import Mathlib

/-!
Shallow embedding of `caps_indicator.py` (pythonCapsIndicator): a polling
lock-key status overlay. The program reads the OS state of Caps Lock,
Num Lock and Scroll Lock on each poll tick, and on any divergence from the
last-displayed state updates a label, shows the window and (re)arms a hide
countdown.

Modelling conventions:
- `platform.system() == "Windows"` is an external fact, threaded through as
  a parameter `isWindows : Bool`.
- The Windows API call `ctypes.windll.user32.GetKeyState(vk)` is modelled by
  an oracle `g : Nat → Option Int`: `some v` is a successful call returning
  the SHORT `v`; `none` means the call raises (`AttributeError`/`OSError`,
  e.g. a missing binding), which the Python code catches. Python's `v & 0x0001`
  equals `v % 2` with a nonnegative result for every Python int, which is
  `Int.emod v 2` here.
- The mutable fields of the `CapsLockWindow` QWidget become the record
  `WindowState`. `visible` is the Qt widget's shown/hidden status (toggled by
  `self.show()` / `self.hide()`); `is_shown` is the class's own flag.
- The hide `QTimer` becomes `hide_timer : Option Int` (`some d` = running
  with interval `d`, set by `start(d)`; `none` = stopped, set by `stop()`),
  plus a ghost counter `hide_timer_epoch` counting the `start` calls.
  `QTimer.start` on a running timer restarts it, discarding the pending
  timeout, so a timeout event is tagged with the epoch of the arming that
  scheduled it and has an effect only while that arming is still current
  (`fire_hide`).
-/

/-- Virtual key code for Caps Lock. -/
def CAPS_LOCK_VK : Nat := 0x14

/-- Virtual key code for Num Lock. -/
def NUMLOCK_VK : Nat := 0x90

/-- Virtual key code for Scroll Lock. -/
def SCROLLLOCK_VK : Nat := 0x91

/-- Default polling interval in milliseconds. -/
def DEFAULT_POLLING_INTERVAL : Int := 250

/-- Default hide time in milliseconds. -/
def DEFAULT_HIDE_TIME : Int := 1500

/-- Default window width in pixels. -/
def DEFAULT_WINDOW_WIDTH : Int := 500

/-- Default window height in pixels. -/
def DEFAULT_WINDOW_HEIGHT : Int := 80

/-- Border radius in pixels, interpolated into the label CSS. -/
def BORDER_RADIUS : Int := 8

/-- Label padding in pixels, interpolated into the label CSS. -/
def LABEL_PADDING : Int := 12

/-- `get_caps_lock_state`: state of Caps Lock via the Windows API; `False`
off-Windows and on any API failure. -/
def get_caps_lock_state (isWindows : Bool) (g : Nat → Option Int) : Bool :=
  if !isWindows then
    false
  else
    match g CAPS_LOCK_VK with
    | some v => (v % 2) != 0
    | none => false

/-- `get_numlock_state`: state of Num Lock via the Windows API; `False`
off-Windows and on any API failure. -/
def get_numlock_state (isWindows : Bool) (g : Nat → Option Int) : Bool :=
  if !isWindows then
    false
  else
    match g NUMLOCK_VK with
    | some v => (v % 2) != 0
    | none => false

/-- `get_scrolllock_state`: state of Scroll Lock via the Windows API; `False`
off-Windows and on any API failure. -/
def get_scrolllock_state (isWindows : Bool) (g : Nat → Option Int) : Bool :=
  if !isWindows then
    false
  else
    match g SCROLLLOCK_VK with
    | some v => (v % 2) != 0
    | none => false

/-- The mutable state of a `CapsLockWindow` object, plus the Qt widget's
visibility and the hide `QTimer`'s status. `hide_timer_epoch` is ghost
instrumentation counting `hide_timer.start` calls, used to identify which
arming a timeout event belongs to. -/
structure WindowState where
  hide_time : Int
  polling_rate : Int
  is_shown : Bool
  current_caps_state : Option Bool
  current_numlock_state : Option Bool
  current_scrolllock_state : Option Bool
  label_text : String
  label_style : String
  visible : Bool
  hide_timer : Option Int
  hide_timer_epoch : Nat
  deriving Repr, DecidableEq

/-- `CapsLockWindow._get_label_style`: label CSS, green theme when any key is
active, gray theme otherwise; the source builds each string with an f-string
interpolating `BORDER_RADIUS` and `LABEL_PADDING`. -/
def get_label_style (has_active_keys : Bool) : String :=
  if has_active_keys then
    "\n                color: #FFFFFF;\n                background-color: #27AE60;\n                border: 1px solid #2ECC71;\n                border-radius: "
      ++ toString BORDER_RADIUS
      ++ "px;\n                padding: "
      ++ toString LABEL_PADDING
      ++ "px;\n                font-weight: 500;\n            "
  else
    "\n                color: #FFFFFF;\n                background-color: #2C3E50;\n                border: 1px solid #34495E;\n                border-radius: "
      ++ toString BORDER_RADIUS
      ++ "px;\n                padding: "
      ++ toString LABEL_PADDING
      ++ "px;\n                font-weight: 500;\n            "

/-- `CapsLockWindow.__init__`: freshly constructed window state. A `QWidget`
is created hidden, so `visible` starts `false`; the hide timer is created but
not started. The Python signature defaults `hide_time` to 1000, but `main`
always passes both arguments. -/
def CapsLockWindow.init (isWindows : Bool) (hide_time polling_rate : Int) :
    WindowState :=
  { hide_time := hide_time
    polling_rate := polling_rate
    is_shown := false
    current_caps_state := none
    current_numlock_state := none
    current_scrolllock_state := none
    label_text :=
      if isWindows then "CAPS: OFF | NUM: OFF | SCROLL: OFF"
      else "Windows-only feature"
    label_style := get_label_style false
    visible := false
    hide_timer := none
    hide_timer_epoch := 0 }

/-- `CapsLockWindow.update_status`: one poll tick. Off-Windows, show the
static platform message once and return. On Windows, read the three key
states; on any difference from the last-displayed state, store the new state,
rebuild the label text and style, show the window and (re)start the hide
timer with `hide_time`. -/
def update_status (isWindows : Bool) (g : Nat → Option Int)
    (s : WindowState) : WindowState :=
  if !isWindows then
    if !s.is_shown then { s with visible := true, is_shown := true } else s
  else
    let caps_lock_active := get_caps_lock_state isWindows g
    let num_lock_active := get_numlock_state isWindows g
    let scroll_lock_active := get_scrolllock_state isWindows g
    if (s.current_caps_state != some caps_lock_active)
        || (s.current_numlock_state != some num_lock_active)
        || (s.current_scrolllock_state != some scroll_lock_active) then
      let caps_display_text := if caps_lock_active then "ON" else "OFF"
      let num_display_text := if num_lock_active then "ON" else "OFF"
      let scroll_display_text := if scroll_lock_active then "ON" else "OFF"
      let any_keys_active :=
        caps_lock_active || num_lock_active || scroll_lock_active
      { s with
        current_caps_state := some caps_lock_active
        current_numlock_state := some num_lock_active
        current_scrolllock_state := some scroll_lock_active
        label_text :=
          "CAPS: " ++ caps_display_text ++ " | NUM: " ++ num_display_text
            ++ " | SCROLL: " ++ scroll_display_text
        label_style := get_label_style any_keys_active
        visible := true
        is_shown := true
        hide_timer := some s.hide_time
        hide_timer_epoch := s.hide_timer_epoch + 1 }
    else
      s

/-- `CapsLockWindow.hide_window`: the hide timer's timeout handler. Hides the
widget, clears `is_shown`, and stops the hide timer. -/
def hide_window (s : WindowState) : WindowState :=
  { s with visible := false, is_shown := false, hide_timer := none }

/-- Dispatch of a hide-timer timeout event scheduled by the arming numbered
`e`. `QTimer.start` discards the pending timeout of the previous arming, so
the event runs `hide_window` only if arming `e` is still the current one and
the timer is still running; otherwise it is a no-op. -/
def fire_hide (e : Nat) (s : WindowState) : WindowState :=
  if s.hide_timer_epoch == e && s.hide_timer.isSome then hide_window s else s

/-- `n` consecutive poll ticks (`update_status` calls), oldest first. -/
def ticks (isWindows : Bool) (g : Nat → Option Int) :
    Nat → WindowState → WindowState
  | 0, s => s
  | n + 1, s => ticks isWindows g n (update_status isWindows g s)

/-- The parsed command-line arguments of `main`. -/
structure Args where
  hide_time : Int
  polling_rate : Int
  deriving Repr, DecidableEq

/-- `argparse` in `main`: `--hide-time` defaults to `DEFAULT_HIDE_TIME` and
`--polling-rate` to `DEFAULT_POLLING_INTERVAL` when the flag is absent
(`none`). -/
def parse_args (hideFlag pollFlag : Option Int) : Args :=
  { hide_time := hideFlag.getD DEFAULT_HIDE_TIME
    polling_rate := pollFlag.getD DEFAULT_POLLING_INTERVAL }

/-- `main` up to entering the Qt event loop: parse the flags, construct
`CapsLockWindow(args.hide_time, args.polling_rate)`, then call
`window.show()`. The result is the window state at program start, before any
poll tick. -/
def main_window_state (isWindows : Bool) (hideFlag pollFlag : Option Int) :
    WindowState :=
  let args := parse_args hideFlag pollFlag
  let window := CapsLockWindow.init isWindows args.hide_time args.polling_rate
  { window with visible := true }

/-- Oracle for witnesses: every `GetKeyState` call succeeds returning 1, so
all three keys read as on. -/
def gAllOn : Nat → Option Int := fun _ => some 1

/-- Concrete state for witnesses: a fresh Windows-platform window after one
poll tick with all keys on. -/
def sAllOn : WindowState :=
  update_status true gAllOn (CapsLockWindow.init true 1500 250)

/-!  Helper lemmas shared by the claim theorems.  -/

/-- On Windows, when the freshly read key states differ from the
last-displayed ones, `update_status` rewrites every display field, shows the
window and restarts the hide timer with `hide_time`. -/
theorem update_status_change_eq (g : Nat → Option Int) (s : WindowState)
    (hdiv : s.current_caps_state ≠ some (get_caps_lock_state true g)
      ∨ s.current_numlock_state ≠ some (get_numlock_state true g)
      ∨ s.current_scrolllock_state ≠ some (get_scrolllock_state true g)) :
    update_status true g s =
      { s with
        current_caps_state := some (get_caps_lock_state true g)
        current_numlock_state := some (get_numlock_state true g)
        current_scrolllock_state := some (get_scrolllock_state true g)
        label_text :=
          "CAPS: " ++ (if get_caps_lock_state true g then "ON" else "OFF")
            ++ " | NUM: " ++ (if get_numlock_state true g then "ON" else "OFF")
            ++ " | SCROLL: "
            ++ (if get_scrolllock_state true g then "ON" else "OFF")
        label_style := get_label_style (get_caps_lock_state true g
          || get_numlock_state true g || get_scrolllock_state true g)
        visible := true
        is_shown := true
        hide_timer := some s.hide_time
        hide_timer_epoch := s.hide_timer_epoch + 1 } := by
  have hcond : ((s.current_caps_state != some (get_caps_lock_state true g))
      || (s.current_numlock_state != some (get_numlock_state true g))
      || (s.current_scrolllock_state != some (get_scrolllock_state true g)))
      = true := by
    rcases hdiv with h | h | h <;> simp [h]
  unfold update_status
  simp [hcond]

/-- On Windows, when the freshly read key states all equal the last-displayed
ones, `update_status` returns the state unchanged. -/
theorem update_status_no_change_eq (g : Nat → Option Int) (s : WindowState)
    (hc : s.current_caps_state = some (get_caps_lock_state true g))
    (hn : s.current_numlock_state = some (get_numlock_state true g))
    (hs : s.current_scrolllock_state = some (get_scrolllock_state true g)) :
    update_status true g s = s := by
  unfold update_status
  simp [hc, hn, hs]

/-- Off-Windows, a poll tick on an already-shown window does nothing. -/
theorem update_status_nonwin_shown (g : Nat → Option Int) (s : WindowState)
    (h : s.is_shown = true) : update_status false g s = s := by
  unfold update_status
  simp [h]

/-- Off-Windows, any number of poll ticks on an already-shown window does
nothing. -/
theorem ticks_nonwin_shown (g : Nat → Option Int) (n : Nat) (s : WindowState)
    (h : s.is_shown = true) : ticks false g n s = s := by
  induction n with
  | zero => rfl
  | succ m ih =>
    show ticks false g m (update_status false g s) = s
    rw [update_status_nonwin_shown g s h]
    exact ih

/-- The active and inactive label styles are distinct strings. -/
theorem get_label_style_injective :
    get_label_style true ≠ get_label_style false := by
  decide

/-- C1: on the supported platform, whenever the freshly sampled state
`(c, n, sc)` differs from the last-displayed state (including the unset
`none` sentinel), a poll tick stores the new state, sets the label text to
the "CAPS/NUM/SCROLL" status line for `(c, n, sc)`, applies the recomputed
styling, shows the window (`visible` and `is_shown` become true) and
(re)starts the hide countdown with the configured `hide_time`. -/
theorem c1_divergence_updates_display (g : Nat → Option Int)
    (s : WindowState) (c n sc : Bool)
    (hc : get_caps_lock_state true g = c)
    (hn : get_numlock_state true g = n)
    (hs : get_scrolllock_state true g = sc)
    (hdiv : s.current_caps_state ≠ some c ∨ s.current_numlock_state ≠ some n
      ∨ s.current_scrolllock_state ≠ some sc) :
    update_status true g s =
      { s with
        current_caps_state := some c
        current_numlock_state := some n
        current_scrolllock_state := some sc
        label_text :=
          "CAPS: " ++ (if c then "ON" else "OFF")
            ++ " | NUM: " ++ (if n then "ON" else "OFF")
            ++ " | SCROLL: " ++ (if sc then "ON" else "OFF")
        label_style := get_label_style (c || n || sc)
        visible := true
        is_shown := true
        hide_timer := some s.hide_time
        hide_timer_epoch := s.hide_timer_epoch + 1 } := by
  subst hc hn hs
  exact update_status_change_eq g s hdiv

/-- Witness for C1: from a fresh window (sentinel state) with all keys
reading on, a poll tick produces exactly the all-on display state. -/
theorem c1_divergence_updates_display_witness :
    update_status true gAllOn (CapsLockWindow.init true 1500 250) =
      { CapsLockWindow.init true 1500 250 with
        current_caps_state := some true
        current_numlock_state := some true
        current_scrolllock_state := some true
        label_text := "CAPS: ON | NUM: ON | SCROLL: ON"
        label_style := get_label_style true
        visible := true
        is_shown := true
        hide_timer := some 1500
        hide_timer_epoch := 1 } := by
  rw [c1_divergence_updates_display gAllOn (CapsLockWindow.init true 1500 250)
    true true true rfl rfl rfl (Or.inl (by decide))]
  rfl

/-- C2: on the supported platform, when the freshly sampled state equals the
last-displayed state in all three components, a poll tick leaves the whole
window state unchanged: no show, no hide, no text or style change, and the
last-displayed state and pending hide countdown are untouched. -/
theorem c2_no_change_is_noop (g : Nat → Option Int) (s : WindowState)
    (hc : s.current_caps_state = some (get_caps_lock_state true g))
    (hn : s.current_numlock_state = some (get_numlock_state true g))
    (hs : s.current_scrolllock_state = some (get_scrolllock_state true g)) :
    update_status true g s = s :=
  update_status_no_change_eq g s hc hn hs

/-- Witness for C2: a second all-on poll tick right after the first one
changes nothing. -/
theorem c2_no_change_is_noop_witness :
    update_status true gAllOn sAllOn = sAllOn :=
  c2_no_change_is_noop gAllOn sAllOn (by decide) (by decide) (by decide)

/-- C3: on a state change, the styling applied is the active theme exactly
when at least one of the three sampled booleans is true, and the inactive
theme exactly when all are false; quantifying over the oracle `g` covers all
8 combinations of the three booleans. -/
theorem c3_style_active_iff_any_key (g : Nat → Option Int) (s : WindowState)
    (hdiv : s.current_caps_state ≠ some (get_caps_lock_state true g)
      ∨ s.current_numlock_state ≠ some (get_numlock_state true g)
      ∨ s.current_scrolllock_state ≠ some (get_scrolllock_state true g)) :
    ((update_status true g s).label_style = get_label_style true ↔
      (get_caps_lock_state true g || get_numlock_state true g
        || get_scrolllock_state true g) = true)
    ∧ ((update_status true g s).label_style = get_label_style false ↔
      (get_caps_lock_state true g || get_numlock_state true g
        || get_scrolllock_state true g) = false) := by
  rw [update_status_change_eq g s hdiv]
  rcases hb : (get_caps_lock_state true g || get_numlock_state true g
      || get_scrolllock_state true g) with _ | _ <;>
    simp [get_label_style_injective, get_label_style_injective.symm]

/-- Witness for C3: with all keys on the applied style is the active theme
and not the inactive one. -/
theorem c3_style_active_iff_any_key_witness :
    ((update_status true gAllOn (CapsLockWindow.init true 1500 250)).label_style
        = get_label_style true ↔
      (get_caps_lock_state true gAllOn || get_numlock_state true gAllOn
        || get_scrolllock_state true gAllOn) = true)
    ∧ ((update_status true gAllOn
          (CapsLockWindow.init true 1500 250)).label_style
        = get_label_style false ↔
      (get_caps_lock_state true gAllOn || get_numlock_state true gAllOn
        || get_scrolllock_state true gAllOn) = false) :=
  c3_style_active_iff_any_key gAllOn (CapsLockWindow.init true 1500 250)
    (Or.inl (by decide))

/-- C4: when the hide countdown fires while the countdown is running, the
machine visible and its arming current, the handler hides the window, moves
the machine to HIDDEN, and stops the timer, so firing the same arming again
is a no-op (it cannot hide twice). -/
theorem c4_expiry_hides_once (s : WindowState) (e : Nat)
    (_hvis : s.is_shown = true)
    (harm : s.hide_timer.isSome = true)
    (hcur : s.hide_timer_epoch = e) :
    (fire_hide e s).visible = false
    ∧ (fire_hide e s).is_shown = false
    ∧ (fire_hide e s).hide_timer = none
    ∧ fire_hide e (fire_hide e s) = fire_hide e s := by
  have hfire : fire_hide e s = hide_window s := by
    unfold fire_hide
    simp [hcur, harm]
  refine ⟨by rw [hfire]; rfl, by rw [hfire]; rfl, by rw [hfire]; rfl, ?_⟩
  rw [hfire]
  unfold fire_hide hide_window
  simp

/-- Witness for C4: the countdown armed by the first all-on tick hides the
window exactly once. -/
theorem c4_expiry_hides_once_witness :
    (fire_hide 1 sAllOn).visible = false
    ∧ (fire_hide 1 sAllOn).is_shown = false
    ∧ (fire_hide 1 sAllOn).hide_timer = none
    ∧ fire_hide 1 (fire_hide 1 sAllOn) = fire_hide 1 sAllOn :=
  c4_expiry_hides_once sAllOn 1 (by decide) (by decide) (by decide)

/-- C5: every state change restarts the hide countdown with the full
configured duration, and any arming from before the change (epoch at most
the pre-change epoch) can no longer fire: its timeout event is a no-op on
the post-change state. -/
theorem c5_change_supersedes_countdown (g : Nat → Option Int)
    (s : WindowState) (e : Nat)
    (hdiv : s.current_caps_state ≠ some (get_caps_lock_state true g)
      ∨ s.current_numlock_state ≠ some (get_numlock_state true g)
      ∨ s.current_scrolllock_state ≠ some (get_scrolllock_state true g))
    (he : e ≤ s.hide_timer_epoch) :
    (update_status true g s).hide_timer = some s.hide_time
    ∧ fire_hide e (update_status true g s) = update_status true g s := by
  rw [update_status_change_eq g s hdiv]
  refine ⟨rfl, ?_⟩
  unfold fire_hide
  have hne : s.hide_timer_epoch + 1 ≠ e := by omega
  simp [hne]

/-- Witness for C5: after the first all-on tick the countdown is armed with
the configured 1500 ms, and the (never armed) epoch-0 countdown cannot
fire. -/
theorem c5_change_supersedes_countdown_witness :
    (update_status true gAllOn (CapsLockWindow.init true 1500 250)).hide_timer
      = some 1500
    ∧ fire_hide 0 (update_status true gAllOn (CapsLockWindow.init true 1500 250))
      = update_status true gAllOn (CapsLockWindow.init true 1500 250) :=
  c5_change_supersedes_countdown gAllOn (CapsLockWindow.init true 1500 250) 0
    (Or.inl (by decide)) (by decide)

/-- C6: on an unsupported platform, starting from a fresh window, any
positive number of poll ticks yields exactly the state of the first tick: the
static platform-message window is shown at the first tick (`visible` and
`is_shown` true), subsequent ticks change nothing, and the hide countdown is
never armed. -/
theorem c6_unsupported_shown_once (g : Nat → Option Int) (ht pr : Int)
    (n : Nat) (hn : 1 ≤ n) :
    ticks false g n (CapsLockWindow.init false ht pr)
      = { CapsLockWindow.init false ht pr with visible := true, is_shown := true }
    ∧ (ticks false g n (CapsLockWindow.init false ht pr)).visible = true
    ∧ (ticks false g n (CapsLockWindow.init false ht pr)).is_shown = true
    ∧ (ticks false g n (CapsLockWindow.init false ht pr)).hide_timer = none := by
  obtain ⟨m, rfl⟩ : ∃ m, n = m + 1 := ⟨n - 1, by omega⟩
  have hstep : ticks false g (m + 1) (CapsLockWindow.init false ht pr)
      = ticks false g m
        { CapsLockWindow.init false ht pr with visible := true, is_shown := true } := by
    rfl
  rw [hstep, ticks_nonwin_shown g m _ rfl]
  exact ⟨rfl, rfl, rfl, rfl⟩

/-- Witness for C6: three ticks off-Windows leave the window in the shown
state of the first tick, with no countdown armed. -/
theorem c6_unsupported_shown_once_witness :
    ticks false gAllOn 3 (CapsLockWindow.init false 1500 250)
      = { CapsLockWindow.init false 1500 250 with
          visible := true, is_shown := true }
    ∧ (ticks false gAllOn 3 (CapsLockWindow.init false 1500 250)).visible = true
    ∧ (ticks false gAllOn 3 (CapsLockWindow.init false 1500 250)).is_shown = true
    ∧ (ticks false gAllOn 3 (CapsLockWindow.init false 1500 250)).hide_timer
      = none :=
  c6_unsupported_shown_once gAllOn 1500 250 3 (by decide)

/-- C7: each key-state reader is a total function (the embedding returns a
`Bool` for every oracle, so no exception escapes): off the supported
platform it returns `false`, and when the API call for its key fails (the
oracle returns `none`, modelling `AttributeError`/`OSError`) it returns
`false` for that key instead of propagating the error. -/
theorem c7_readers_default_false (isW : Bool) (g : Nat → Option Int) :
    (isW = false →
      get_caps_lock_state isW g = false
        ∧ get_numlock_state isW g = false
        ∧ get_scrolllock_state isW g = false)
    ∧ (g CAPS_LOCK_VK = none → get_caps_lock_state isW g = false)
    ∧ (g NUMLOCK_VK = none → get_numlock_state isW g = false)
    ∧ (g SCROLLLOCK_VK = none → get_scrolllock_state isW g = false) := by
  refine ⟨fun h => ?_, fun h => ?_, fun h => ?_, fun h => ?_⟩ <;>
    cases isW <;>
    simp_all [get_caps_lock_state, get_numlock_state, get_scrolllock_state]

/-- Witness for C7: on Windows with every API call failing, all three
readers return false. -/
theorem c7_readers_default_false_witness :
    get_caps_lock_state true (fun _ => none) = false
    ∧ get_numlock_state true (fun _ => none) = false
    ∧ get_scrolllock_state true (fun _ => none) = false :=
  ⟨(c7_readers_default_false true (fun _ => none)).2.1 rfl,
   (c7_readers_default_false true (fun _ => none)).2.2.1 rfl,
   (c7_readers_default_false true (fun _ => none)).2.2.2 rfl⟩

/-- C8 counterexample: at program start on the supported platform with no
CLI flags, before any poll tick, `main` has already called `window.show()`,
so the window IS shown, contradicting the claim that it is not. -/
theorem c8_window_shown_at_start_counterexample :
    (main_window_state true none none).visible = true := rfl

/-- C8 amended: at program start, before any poll tick, the state machine's
own flag `is_shown` is false (machine state HIDDEN) and the last-displayed
state is the unset `None` sentinel for all three keys, and no hide countdown
is armed; however `main` calls `window.show()` right after construction, so
the window itself is already shown. -/
theorem c8_initial_state (isW : Bool) (hf pf : Option Int) :
    (main_window_state isW hf pf).is_shown = false
    ∧ (main_window_state isW hf pf).current_caps_state = none
    ∧ (main_window_state isW hf pf).current_numlock_state = none
    ∧ (main_window_state isW hf pf).current_scrolllock_state = none
    ∧ (main_window_state isW hf pf).hide_timer = none
    ∧ (main_window_state isW hf pf).visible = true :=
  ⟨rfl, rfl, rfl, rfl, rfl, rfl⟩

/-- C9: with both CLI flags absent, parsing yields hide time 1500 ms and
polling rate 250 ms; the window constructed by `main` carries exactly these
values (`hide_time` arming the countdown, `polling_rate` starting the poll
timer), and the first state-changing tick arms the countdown with 1500 ms. -/
theorem c9_cli_defaults (isW : Bool) (g : Nat → Option Int) :
    parse_args none none = { hide_time := 1500, polling_rate := 250 }
    ∧ (main_window_state isW none none).hide_time = 1500
    ∧ (main_window_state isW none none).polling_rate = 250
    ∧ (update_status true g (main_window_state true none none)).hide_timer
      = some 1500 := by
  refine ⟨rfl, by cases isW <;> rfl, by cases isW <;> rfl, ?_⟩
  rw [update_status_change_eq g (main_window_state true none none)
    (Or.inl (by simp [main_window_state, parse_args, CapsLockWindow.init]))]
  rfl

/-- C10: once the three last-displayed state fields hold booleans, neither
`update_status` (on either platform) nor `hide_window` ever resets any of
them to the `None` sentinel. -/
theorem c10_sentinel_never_reappears (isW : Bool) (g : Nat → Option Int)
    (s : WindowState)
    (hc : s.current_caps_state.isSome = true)
    (hn : s.current_numlock_state.isSome = true)
    (hs : s.current_scrolllock_state.isSome = true) :
    (update_status isW g s).current_caps_state.isSome = true
    ∧ (update_status isW g s).current_numlock_state.isSome = true
    ∧ (update_status isW g s).current_scrolllock_state.isSome = true
    ∧ (hide_window s).current_caps_state.isSome = true
    ∧ (hide_window s).current_numlock_state.isSome = true
    ∧ (hide_window s).current_scrolllock_state.isSome = true := by
  refine ⟨?_, ?_, ?_, hc, hn, hs⟩
  all_goals
    unfold update_status
    dsimp only
    split
    · split <;> simp_all
    · split <;> simp_all

/-- Witness for C10: from the post-first-tick state (all fields sampled),
one more tick and a hide both keep all three fields sampled. -/
theorem c10_sentinel_never_reappears_witness :
    (update_status true gAllOn sAllOn).current_caps_state.isSome = true
    ∧ (update_status true gAllOn sAllOn).current_numlock_state.isSome = true
    ∧ (update_status true gAllOn sAllOn).current_scrolllock_state.isSome = true
    ∧ (hide_window sAllOn).current_caps_state.isSome = true
    ∧ (hide_window sAllOn).current_numlock_state.isSome = true
    ∧ (hide_window sAllOn).current_scrolllock_state.isSome = true :=
  c10_sentinel_never_reappears true gAllOn sAllOn
    (by decide) (by decide) (by decide)
